import Mathlib

/-
Verification development for the Odoo MCP connection-pool / JSON-RPC handler
core (src/odoo_mcp/core/jsonrpc_handler.py, src/odoo_mcp/core/connection_pool.py,
src/odoo_mcp/error_handling/exceptions.py).

The Python code is embedded shallowly:
- JSON values are the inductive `JsonVal`; Python dicts of string keys are
  association lists (`PyDict`) with unique keys, as Python dicts have.
- Exceptions are the inductive `PyExc`; the taxonomy of
  error_handling/exceptions.py is the enumeration `ExcKind`.
- The async transport (httpx) is replaced by an explicit `TransportOutcome`
  argument: either a transport-level failure (timeout, connection error,
  HTTP status error raised by raise_for_status) or the parsed JSON body of
  the response.  Fallible Python code becomes `Except PyExc`.
- The connection pool becomes a pure state machine on `PoolState`; all pool
  operations in the source run their mutation under one asyncio lock, so each
  locked section is one atomic step here.
-/

/-- A JSON value, as produced by `response.json()` in the handler. -/
inductive JsonVal where
  | null
  | bool (b : Bool)
  | num (n : Int)
  | str (s : String)
  | arr (xs : List JsonVal)
  | obj (fields : List (String × JsonVal))
deriving Repr

/-- Python dict with string keys, in insertion order, keys unique. -/
abbrev PyDict := List (String × JsonVal)

/-- Python truthiness (`if x:`) of a JSON value: None, False, 0, "", [], {} are falsy. -/
def truthy : JsonVal → Bool
  | .null => false
  | .bool b => b
  | .num n => !(n == 0)
  | .str s => !(s == "")
  | .arr xs => !xs.isEmpty
  | .obj fs => !fs.isEmpty

/-- Python `d.get(k)`: the value bound to `k`, if any (first binding; keys are unique). -/
def dictGet : PyDict → String → Option JsonVal
  | [], _ => none
  | kv :: rest, k => if kv.1 = k then some kv.2 else dictGet rest k

/-- The dict after `d.pop(k, default)`: every binding of `k` removed. -/
def dictErase : PyDict → String → PyDict
  | [], _ => []
  | kv :: rest, k => if kv.1 = k then dictErase rest k else kv :: dictErase rest k

/-- Python `d[k] = v`: replace the existing binding in place, else append (Python
dict assignment keeps the key position of an existing key). -/
def dictSet (d : PyDict) (k : String) (v : JsonVal) : PyDict :=
  if (dictGet d k).isSome then d.map (fun kv => if kv.1 = k then (k, v) else kv)
  else d ++ [(k, v)]

mutual

/-- Python `repr` of a JSON value (escape sequences inside strings are not
modelled; no claim feeds strings with quotes or backslashes through repr). -/
def pyRepr : JsonVal → String
  | .null => "None"
  | .bool true => "True"
  | .bool false => "False"
  | .num n => toString n
  | .str s => "\x27" ++ s ++ "\x27"
  | .arr xs => "[" ++ pyReprList xs ++ "]"
  | .obj fs => "\x7b" ++ pyReprFields fs ++ "\x7d"

/-- Comma-separated `repr`s of the elements of a Python list. -/
def pyReprList : List JsonVal → String
  | [] => ""
  | [v] => pyRepr v
  | v :: rest => pyRepr v ++ ", " ++ pyReprList rest

/-- Comma-separated `repr(k): repr(v)` entries of a Python dict. -/
def pyReprFields : List (String × JsonVal) → String
  | [] => ""
  | [kv] => "\x27" ++ kv.1 ++ "\x27: " ++ pyRepr kv.2
  | kv :: rest => "\x27" ++ kv.1 ++ "\x27: " ++ pyRepr kv.2 ++ ", " ++ pyReprFields rest

end

/-- Python `str` of a JSON value, as used by f-string interpolation. -/
def pyStr : JsonVal → String
  | .str s => s
  | v => pyRepr v

/-- f-string interpolation of `d.get(k)`: `None` when the key is absent. -/
def pyStrOpt : Option JsonVal → String
  | none => "None"
  | some v => pyStr v

/-- Python `s.strip(chars)`: drop leading and trailing characters from `cs`. -/
def stripChars (s : String) (cs : List Char) : String :=
  String.mk (((s.data.dropWhile (fun c => cs.contains c)).reverse.dropWhile
    (fun c => cs.contains c)).reverse)

/-- The closed set of exception classes of error_handling/exceptions.py. -/
inductive ExcKind where
  | OdooMCPError
  | AuthError
  | NetworkError
  | ProtocolError
  | ConfigurationError
  | OdooValidationError
  | OdooRecordNotFoundError
  | PoolTimeoutError
  | OdooMethodNotFoundError
deriving DecidableEq, Repr

/-- A transport-level failure raised by the HTTP client before a JSON body is
available: `httpx.TimeoutException`, `httpx.ConnectError`, or the
`httpx.HTTPStatusError` raised by `response.raise_for_status()`.  The string
is the exception text (its `str`). -/
inductive TransportFailure where
  | timeoutExc (s : String)
  | connectExc (s : String)
  | statusExc (s : String)
deriving DecidableEq, Repr

/-- The exception text, `str(e)`. -/
def TransportFailure.text : TransportFailure → String
  | .timeoutExc s => s
  | .connectExc s => s
  | .statusExc s => s

/-- A Python exception as observed by the handler's callers: a raw transport
exception, a plain `Exception(s)`, or one of the project's `OdooMCPError`
subclasses with its message and optional `original_exception` cause. -/
inductive PyExc where
  | transport (f : TransportFailure)
  | plain (s : String)
  | odoo (kind : ExcKind) (message : String) (cause : Option PyExc)

/-- Python `str` of an exception: the single message argument. -/
def PyExc.text : PyExc → String
  | .transport f => f.text
  | .plain s => s
  | .odoo _ m _ => m

/-- What the transport produced for one request: a raised transport exception,
or the parsed JSON object body of the HTTP response (Odoo JSON-RPC responses
are JSON objects). -/
inductive TransportOutcome where
  | failure (f : TransportFailure)
  | success (body : PyDict)

/-- Message prefix of the blanket `OdooMCPError` re-raise in
`JSONRPCHandler.call`s `except Exception` clause. -/
def unexpectedErrorPrefix : String :=
  "An unexpected error occurred during JSON-RPC call: "

/-- Text standing in for Python's AttributeError when `.get` is called on a
non-dict error payload; its exact message is not modelled and no claim
depends on this branch. -/
def attributeErrorText : String := "AttributeError"

/-- The `full_error` string of `JSONRPCHandler.call`:
`f"Code {error_code}: {error_message} - {error_debug_info}".strip(" -")`
with `error_code = error_data.get("code")`,
`error_message = error_data.get("message", "Unknown JSON-RPC Error")` and
`error_debug_info = error_data.get("data", {}).get("debug", "")`. -/
def fullErrorText (eflds dflds : List (String × JsonVal)) : String :=
  stripChars ("Code " ++ pyStrOpt (dictGet eflds "code") ++ ": "
      ++ pyStr ((dictGet eflds "message").getD (.str "Unknown JSON-RPC Error"))
      ++ " - " ++ pyStr ((dictGet dflds "debug").getD (.str ""))) [' ', '-']

/-- Embedding of `JSONRPCHandler.call` (jsonrpc_handler.py lines 82-116), given the
transport outcome of posting the prepared payload.  The whole body sits in a
`try` whose `except Exception as e` re-raises
`OdooMCPError(f"An unexpected error occurred during JSON-RPC call: {e}",
original_exception=e)`; in particular the `ProtocolError` raised for an
`error` field, and every transport exception, are caught and wrapped. -/
def call (resp : TransportOutcome) : Except PyExc JsonVal :=
  match resp with
  | .failure f =>
      .error (.odoo .OdooMCPError (unexpectedErrorPrefix ++ f.text) (some (.transport f)))
  | .success body =>
      let errVal := (dictGet body "error").getD .null
      if truthy errVal then
        match errVal with
        | .obj eflds =>
          match (dictGet eflds "data").getD (.obj []) with
          | .obj dflds =>
            let proto : PyExc := .odoo .ProtocolError
                ("JSON-RPC Error Response: " ++ fullErrorText eflds dflds)
                (some (.plain (pyStr (.obj eflds))))
            .error (.odoo .OdooMCPError (unexpectedErrorPrefix ++ proto.text) (some proto))
          | _ =>
            .error (.odoo .OdooMCPError (unexpectedErrorPrefix ++ attributeErrorText)
              (some (.plain attributeErrorText)))
        | _ =>
          .error (.odoo .OdooMCPError (unexpectedErrorPrefix ++ attributeErrorText)
            (some (.plain attributeErrorText)))
      else
        .ok ((dictGet body "result").getD .null)

/-- The exception class the call raised, if it raised one of the taxonomy. -/
def raisedKind : Except PyExc JsonVal → Option ExcKind
  | .error (.odoo k _ _) => some k
  | _ => none

/-- State of one `JSONRPCHandler` (jsonrpc_handler.py lines 21-43): the
configured credentials and the cached authenticated uid (`self.uid`,
initialised to `None`).  `loginCalls` counts how many times the login RPC
(`call("common", "login", ...)`) has been issued, to state the
at-most-once property of the cached authentication. -/
structure HandlerState where
  database : String
  username : String
  password : String
  uid : Option JsonVal
  loginCalls : Nat

/-- Embedding of `JSONRPCHandler.ensure_authenticated` (lines 67-80), given the transport
outcome of the login request it would issue.  When `self.uid` is already set
the transport is not touched at all; otherwise
`call("common", "login", [database, username, password])` is performed, a
falsy result raises `AuthError` without assigning `self.uid`, and a truthy
result is cached and returned. -/
def ensure_authenticated (h : HandlerState) (loginResp : TransportOutcome) :
    Except PyExc JsonVal × HandlerState :=
  match h.uid with
  | some u => (.ok u, h)
  | none =>
    let h2 := { h with loginCalls := h.loginCalls + 1 }
    match call loginResp with
    | .error e => (.error e, h2)
    | .ok authResult =>
      if truthy authResult then (.ok authResult, { h2 with uid := some authResult })
      else
        (.error (.odoo .AuthError
          ("Authentication failed: invalid credentials for database " ++ h.database) none), h2)

/-- Repeated `ensure_authenticated` calls: the handler state after answering
each login attempt with the corresponding transport outcome. -/
def ensureMany (h : HandlerState) (resps : List TransportOutcome) : HandlerState :=
  resps.foldl (fun st r => (ensure_authenticated st r).2) h

/-- Line 149: `call_uid = uid if uid is not None else self.uid`; an explicit
uid argument is an int, the cached uid is whatever JSON the login returned. -/
def callUidVal (uidOpt : Option Int) (cachedUid : Option JsonVal) : JsonVal :=
  match uidOpt with
  | some n => .num n
  | none => cachedUid.getD .null

/-- Lines 152-155 of `execute_kw`: `context = kwargs.pop("context", {})`
followed by `if session_id: context["session_id"] = session_id`.  Item
assignment on a non-dict context raises a TypeError (listed in the
docstring); `session_id=None` and `session_id=""` are falsy and skip the
merge. -/
def sessionMergedContext (ctxOpt : Option JsonVal) (sidOpt : Option String) :
    Except PyExc JsonVal :=
  let context := ctxOpt.getD (.obj [])
  match sidOpt with
  | none => .ok context
  | some sid =>
    if sid = "" then .ok context
    else
      match context with
      | .obj cf => .ok (.obj (dictSet cf "session_id" (.str sid)))
      | _ => .error (.plain "TypeError: item assignment on non-dict context")

/-- Lines 156-162 of `execute_kw`: the positional arguments for
`object.execute_kw`.  `odoo_args = [db, call_uid, call_password, model,
method, args]`, and `if kwargs or context:` a copy of the remaining kwargs,
with the context map added under "context" when truthy, is appended. -/
def buildOdooArgs (db : String) (callUid : JsonVal) (callPassword : String)
    (model method : String) (argsv : JsonVal) (kwargs2 : PyDict) (context : JsonVal) :
    List JsonVal :=
  let base : List JsonVal := [.str db, callUid, .str callPassword, .str model, .str method, argsv]
  if !kwargs2.isEmpty || truthy context then
    base ++ [.obj (if truthy context then dictSet kwargs2 "context" context else kwargs2)]
  else base

/-- Embedding of `JSONRPCHandler.execute_kw` (lines 118-163) up to the point where it
dispatches `call("object", "execute_kw", odoo_args)`, whose behaviour is
`call` above.  Returns the positional argument list it passes to `call`
(the observable the claims are about), the handler state, and the caller's
kwargs dict after the in-place `kwargs.pop("context", {})`. -/
def execute_kw (h : HandlerState) (loginResp : TransportOutcome)
    (model method : String) (argsv : JsonVal) (kwargs : PyDict)
    (uidOpt : Option Int) (pwOpt : Option String) (sidOpt : Option String) :
    Except PyExc (List JsonVal) × HandlerState × PyDict :=
  match ensure_authenticated h loginResp with
  | (.error e, h2) => (.error e, h2, kwargs)
  | (.ok _, h2) =>
    let kwargs2 := dictErase kwargs "context"
    match sessionMergedContext (dictGet kwargs "context") sidOpt with
    | .error e => (.error e, h2, kwargs2)
    | .ok ctx2 =>
      (.ok (buildOdooArgs h2.database (callUidVal uidOpt h2.uid) (pwOpt.getD h2.password)
        model method argsv kwargs2 ctx2), h2, kwargs2)

/-- One `ConnectionWrapper` (connection_pool.py lines 20-37).  `connId`
stands for the identity of the wrapped handler object (`wrapper.connection`),
used by `release_connection`s identity comparison; `in_use` and `last_used`
are the wrapper's fields.  Times are the event-loop clock, modelled as `Int`. -/
structure ConnectionWrapper where
  connId : Nat
  in_use : Bool
  last_used : Int
deriving DecidableEq, Repr

/-- State of one `ConnectionPool` (lines 40-60): the wrapper list, the
`max_connections` ceiling and the `health_check_interval` from the config,
plus a counter supplying fresh identities for handlers made by the factory. -/
structure PoolState where
  connections : List ConnectionWrapper
  max_size : Nat
  health_check_interval : Int
  next_id : Nat
deriving DecidableEq, Repr

/-- A freshly constructed pool with an empty wrapper list. -/
def mkPool (maxSize : Nat) (interval : Int) : PoolState :=
  { connections := [], max_size := maxSize, health_check_interval := interval, next_id := 0 }

/-- The scan of `get_connection` (lines 94-99): flip the first wrapper with
`in_use == False` to busy and return its connection, if one exists. -/
def acquireFirstFree : List ConnectionWrapper → Option (List ConnectionWrapper × Nat)
  | [] => none
  | w :: rest =>
    if w.in_use then
      match acquireFirstFree rest with
      | some (rest2, cid) => some (w :: rest2, cid)
      | none => none
    else some ({ w with in_use := true } :: rest, w.connId)

/-- The `PoolTimeoutError("No connections available in pool")` of line 121. -/
def poolTimeoutExc : PyExc :=
  .odoo .PoolTimeoutError "No connections available in pool" none

/-- The locked acquisition section of `ConnectionPool.get_connection`
(lines 90-121): reuse the first idle wrapper, else — only while
`len(self.connections) < self.max_size` — build a handler via the factory
(modelled as always succeeding), append its wrapper (constructed with
`last_used = now`, then marked busy), else raise `PoolTimeoutError`
immediately.  Returns the acquired connection identity and the new state. -/
def getConnection (now : Int) (s : PoolState) : Except PyExc Nat × PoolState :=
  match acquireFirstFree s.connections with
  | some (conns2, cid) => (.ok cid, { s with connections := conns2 })
  | none =>
    if s.connections.length < s.max_size then
      let w : ConnectionWrapper := { connId := s.next_id, in_use := true, last_used := now }
      (.ok w.connId, { s with connections := s.connections ++ [w], next_id := s.next_id + 1 })
    else
      (.error poolTimeoutExc, s)

/-- The `finally` block of `get_connection` (lines 126-131): the yielded
wrapper object itself is marked idle and its `last_used` refreshed.  Object
identity is the connection id; ids are unique in reachable states. -/
def releaseScopedWrapper (now : Int) (cid : Nat) (conns : List ConnectionWrapper) :
    List ConnectionWrapper :=
  conns.map (fun w => if w.connId = cid then { w with in_use := false, last_used := now } else w)

/-- Embedding of `ConnectionPool.release_connection` (lines 133-145): find the first
wrapper whose `connection` is the given handler, mark it idle, refresh
`last_used`, and break. -/
def release_connection (now : Int) (cid : Nat) :
    List ConnectionWrapper → List ConnectionWrapper
  | [] => []
  | w :: rest =>
    if w.connId = cid then { w with in_use := false, last_used := now } :: rest
    else w :: release_connection now cid rest

/-- Embedding of `ConnectionPool.close_all` (lines 147-155): cleanup is attempted on every
wrapper's connection (failures logged, never raised) and the wrapper list is
cleared unconditionally. -/
def close_all (s : PoolState) : PoolState :=
  { s with connections := [] }

/-- One wake-up of `ConnectionPool._health_check_loop` (lines 157-182): under
the lock, every wrapper with `not wrapper.in_use` and
`now - wrapper.last_used > health_check_interval` is closed and removed
(close is modelled as never raising); every other wrapper is kept. -/
def healthCheckTick (now : Int) (s : PoolState) : PoolState :=
  { s with connections := (s.connections.filter
      (fun w => !(!w.in_use && decide (now - w.last_used > s.health_check_interval)))) }

/-- The locked pool operations.  `stop`/`close` cancel the health-check task
and then run `close_all`, so their pool-state effect is `closeAll`. -/
inductive PoolOp where
  | acquire (now : Int)
  | scopedRelease (now : Int) (cid : Nat)
  | explicitRelease (now : Int) (cid : Nat)
  | healthTick (now : Int)
  | closeAll

/-- Apply one pool operation to the pool state. -/
def step (s : PoolState) : PoolOp → PoolState
  | .acquire now => (getConnection now s).2
  | .scopedRelease now cid => { s with connections := releaseScopedWrapper now cid s.connections }
  | .explicitRelease now cid => { s with connections := release_connection now cid s.connections }
  | .healthTick now => healthCheckTick now s
  | .closeAll => close_all s

/-- Run a sequence of pool operations. -/
def run (s : PoolState) (ops : List PoolOp) : PoolState :=
  ops.foldl step s

/-- The connection identities present in a wrapper list. -/
def wrapperIds (l : List ConnectionWrapper) : List Nat :=
  l.map (fun w => w.connId)

/- Helper lemmas about the dict operations. -/

theorem dictGet_dictErase_self (d : PyDict) (k : String) :
    dictGet (dictErase d k) k = none := by
  induction d with
  | nil => rfl
  | cons kv rest ih =>
    rw [dictErase]
    by_cases h : kv.1 = k
    · rw [if_pos h]; exact ih
    · rw [if_neg h, dictGet, if_neg h]; exact ih

theorem dictGet_dictErase_ne (d : PyDict) (k k2 : String) (hne : k2 ≠ k) :
    dictGet (dictErase d k) k2 = dictGet d k2 := by
  induction d with
  | nil => rfl
  | cons kv rest ih =>
    rw [dictErase]
    by_cases h : kv.1 = k
    · have h2 : ¬ kv.1 = k2 := fun hh => hne (by rw [← hh, h])
      rw [if_pos h, ih]
      conv_rhs => rw [dictGet]
      rw [if_neg h2]
    · rw [if_neg h, dictGet, dictGet]
      by_cases h3 : kv.1 = k2
      · rw [if_pos h3, if_pos h3]
      · rw [if_neg h3, if_neg h3, ih]

/- Helper lemmas about the pool primitives. -/

theorem acquireFirstFree_length (conns : List ConnectionWrapper) :
    ∀ conns2 cid, acquireFirstFree conns = some (conns2, cid) →
      conns2.length = conns.length := by
  induction conns with
  | nil => intro conns2 cid h; cases h
  | cons w rest ih =>
    intro conns2 cid h
    rw [acquireFirstFree] at h
    by_cases hw : w.in_use
    · rw [if_pos hw] at h
      cases hr : acquireFirstFree rest with
      | none => rw [hr] at h; cases h
      | some p =>
        obtain ⟨rest2, cid2⟩ := p
        rw [hr] at h
        cases h
        simp [ih rest2 cid hr]
    · rw [if_neg hw] at h
      cases h
      simp

theorem acquireFirstFree_ids (conns : List ConnectionWrapper) :
    ∀ conns2 cid, acquireFirstFree conns = some (conns2, cid) →
      wrapperIds conns2 = wrapperIds conns := by
  induction conns with
  | nil => intro conns2 cid h; cases h
  | cons w rest ih =>
    intro conns2 cid h
    rw [acquireFirstFree] at h
    by_cases hw : w.in_use
    · rw [if_pos hw] at h
      cases hr : acquireFirstFree rest with
      | none => rw [hr] at h; cases h
      | some p =>
        obtain ⟨rest2, cid2⟩ := p
        rw [hr] at h
        cases h
        simp only [wrapperIds, List.map_cons]
        rw [show (rest2.map fun v => v.connId) = rest.map fun v => v.connId from
          ih rest2 cid hr]
    · rw [if_neg hw] at h
      cases h
      simp [wrapperIds]

theorem acquireFirstFree_all_busy (conns : List ConnectionWrapper)
    (h : ∀ w ∈ conns, w.in_use = true) : acquireFirstFree conns = none := by
  induction conns with
  | nil => rfl
  | cons w rest ih =>
    have hw : w.in_use = true := h w (by simp)
    rw [acquireFirstFree, if_pos hw, ih (fun v hv => h v (by simp [hv]))]

theorem releaseScopedWrapper_ids (now : Int) (cid : Nat) (conns : List ConnectionWrapper) :
    wrapperIds (releaseScopedWrapper now cid conns) = wrapperIds conns := by
  induction conns with
  | nil => rfl
  | cons w rest ih =>
    by_cases h : w.connId = cid
    · simp [releaseScopedWrapper, wrapperIds, h] at ih ⊢
      exact ih
    · simp [releaseScopedWrapper, wrapperIds, h] at ih ⊢
      exact ih

theorem release_connection_ids (now : Int) (cid : Nat) (conns : List ConnectionWrapper) :
    wrapperIds (release_connection now cid conns) = wrapperIds conns := by
  induction conns with
  | nil => rfl
  | cons w rest ih =>
    by_cases h : w.connId = cid
    · simp [release_connection, wrapperIds, h]
    · simp [release_connection, wrapperIds, h] at ih ⊢
      exact ih

theorem release_connection_length (now : Int) (cid : Nat) (conns : List ConnectionWrapper) :
    (release_connection now cid conns).length = conns.length := by
  have h := release_connection_ids now cid conns
  simpa [wrapperIds] using congrArg List.length h

/-- Every error exit of `call` is an `OdooMCPError`-family exception produced
by the blanket `except Exception` clause: `call` never re-raises the raw
transport exception or any other non-taxonomy exception. -/
theorem call_error_is_odoo (resp : TransportOutcome) :
    (∃ k m c, call resp = .error (.odoo k m c)) ∨ (∃ v, call resp = .ok v) := by
  cases resp with
  | failure f => exact .inl ⟨_, _, _, rfl⟩
  | success body =>
    rw [call]
    split
    · split
      all_goals first
        | exact .inl ⟨_, _, _, rfl⟩
        | (split <;> exact .inl ⟨_, _, _, rfl⟩)
    · exact .inr ⟨_, rfl⟩

theorem getConnection_keeps_ids (now : Int) (s : PoolState) (x : Nat)
    (hx : x ∈ wrapperIds s.connections) :
    x ∈ wrapperIds (getConnection now s).2.connections := by
  cases hq : acquireFirstFree s.connections with
  | some p =>
    obtain ⟨conns2, cid2⟩ := p
    simp only [getConnection, hq]
    rw [acquireFirstFree_ids s.connections conns2 cid2 hq]
    exact hx
  | none =>
    by_cases hlt : s.connections.length < s.max_size
    · simp only [getConnection, hq, if_pos hlt]
      simp only [wrapperIds, List.map_append]
      exact List.mem_append_left _ hx
    · simp only [getConnection, hq, if_neg hlt]
      exact hx

theorem getConnection_growth (now : Int) (s : PoolState) :
    ((getConnection now s).2.connections.length = s.connections.length)
    ∨ ((getConnection now s).2.connections.length = s.connections.length + 1
        ∧ s.connections.length < s.max_size) := by
  cases hq : acquireFirstFree s.connections with
  | some p =>
    obtain ⟨conns2, cid2⟩ := p
    left
    simp only [getConnection, hq]
    exact acquireFirstFree_length s.connections conns2 cid2 hq
  | none =>
    by_cases hlt : s.connections.length < s.max_size
    · right
      constructor
      · simp [getConnection, hq, if_pos hlt]
      · exact hlt
    · left
      simp [getConnection, hq, if_neg hlt]

theorem step_max_size (s : PoolState) (op : PoolOp) : (step s op).max_size = s.max_size := by
  cases op with
  | acquire now =>
    rw [step]
    cases hq : acquireFirstFree s.connections with
    | some p =>
      obtain ⟨c2, cid2⟩ := p
      simp [getConnection, hq]
    | none =>
      by_cases hlt : s.connections.length < s.max_size <;> simp [getConnection, hq, hlt]
  | scopedRelease now cid => rfl
  | explicitRelease now cid => rfl
  | healthTick now => rfl
  | closeAll => rfl

theorem step_length_le (s : PoolState) (op : PoolOp) (hb : s.connections.length ≤ s.max_size) :
    (step s op).connections.length ≤ s.max_size := by
  cases op with
  | acquire now =>
    rcases getConnection_growth now s with h | ⟨h, hlt⟩
    · rw [step, h]; exact hb
    · rw [step, h]; exact hlt
  | scopedRelease now cid =>
    rw [step]
    show (releaseScopedWrapper now cid s.connections).length ≤ s.max_size
    rw [releaseScopedWrapper]
    simpa using hb
  | explicitRelease now cid =>
    rw [step]
    show (release_connection now cid s.connections).length ≤ s.max_size
    rw [release_connection_length]
    exact hb
  | healthTick now =>
    rw [step]
    exact le_trans (List.length_filter_le _ _) hb
  | closeAll => simp [step, close_all]

theorem run_max_size (ops : List PoolOp) (s : PoolState) :
    (run s ops).max_size = s.max_size := by
  induction ops generalizing s with
  | nil => rfl
  | cons op rest ih =>
    show (run (step s op) rest).max_size = s.max_size
    rw [ih, step_max_size]

theorem run_length_le (ops : List PoolOp) (s : PoolState)
    (hb : s.connections.length ≤ s.max_size) :
    (run s ops).connections.length ≤ s.max_size := by
  induction ops generalizing s with
  | nil => exact hb
  | cons op rest ih =>
    have h1 : (step s op).connections.length ≤ (step s op).max_size := by
      rw [step_max_size]
      exact step_length_le s op hb
    have h2 := ih (step s op) h1
    rw [step_max_size] at h2
    exact h2

/- Concrete inputs used by counterexamples and witnesses. -/

/-- A remote error object with code, message and embedded debug text. -/
def sampleErrorFields : List (String × JsonVal) :=
  [("code", .num 200), ("message", .str "Odoo Server Error"),
   ("data", .obj [("debug", .str "Traceback: boom")])]

/-- The `data` sub-object of `sampleErrorFields`. -/
def sampleDataFields : List (String × JsonVal) := [("debug", .str "Traceback: boom")]

/-- A well-formed JSON-RPC response body carrying a non-empty `error` field. -/
def sampleErrorBody : PyDict := [("error", .obj sampleErrorFields)]

/-- C1 (counterexample): on a well-formed response with a non-empty `error`
field, the exception leaving `call` is the generic `OdooMCPError`, not a
`ProtocolError`: the `raise ProtocolError` on line 106 sits inside the `try`
block, so the `except Exception` clause on line 110 catches it and re-raises
`OdooMCPError`.  This refutes the claim that `call` raises a `ProtocolError`
and no other exception type. -/
theorem call_error_response_is_wrapped_not_protocol :
    raisedKind (call (.success sampleErrorBody)) = some ExcKind.OdooMCPError
    ∧ raisedKind (call (.success sampleErrorBody)) ≠ some ExcKind.ProtocolError := by
  constructor
  · rfl
  · decide

/-- C1 (amended): for every well-formed response whose `error` field is a
non-empty object (with an object `data` payload, the well-formed case), `call`
raises `OdooMCPError` whose message is the fixed prefix followed by the
`ProtocolError` text `"JSON-RPC Error Response: Code {code}: {message} -
{debug}"` stripped of surrounding spaces/hyphens — so it still contains the
remote error's code, message and debug text — and whose
`original_exception` cause is that `ProtocolError` (itself carrying the
stringified error object as its cause). -/
theorem call_error_response_message_and_cause (body : PyDict)
    (eflds dflds : List (String × JsonVal))
    (herr : dictGet body "error" = some (.obj eflds))
    (htruthy : truthy (JsonVal.obj eflds) = true)
    (hdata : (dictGet eflds "data").getD (.obj []) = .obj dflds) :
    call (.success body) = .error (.odoo .OdooMCPError
      (unexpectedErrorPrefix ++ ("JSON-RPC Error Response: " ++ fullErrorText eflds dflds))
      (some (.odoo .ProtocolError ("JSON-RPC Error Response: " ++ fullErrorText eflds dflds)
        (some (.plain (pyStr (.obj eflds))))))) := by
  rw [call]
  simp only [herr, Option.getD_some]
  rw [if_pos htruthy]
  simp only [hdata]
  rfl

/-- C1 (witness): the amended theorem applied to `sampleErrorBody`. -/
theorem call_error_response_message_and_cause_witness :
    dictGet sampleErrorBody "error" = some (JsonVal.obj sampleErrorFields)
    ∧ truthy (JsonVal.obj sampleErrorFields) = true
    ∧ (dictGet sampleErrorFields "data").getD (JsonVal.obj []) = JsonVal.obj sampleDataFields
    ∧ call (.success sampleErrorBody) = .error (.odoo .OdooMCPError
        (unexpectedErrorPrefix ++ ("JSON-RPC Error Response: "
          ++ fullErrorText sampleErrorFields sampleDataFields))
        (some (.odoo .ProtocolError ("JSON-RPC Error Response: "
            ++ fullErrorText sampleErrorFields sampleDataFields)
          (some (.plain (pyStr (JsonVal.obj sampleErrorFields))))))) :=
  ⟨rfl, rfl, rfl,
    call_error_response_message_and_cause sampleErrorBody sampleErrorFields sampleDataFields
      rfl rfl rfl⟩

/-- C2 (counterexample): on a transport failure, `call` raises the generic
`OdooMCPError`, not a `NetworkError` — `NetworkError` is not even imported by
jsonrpc_handler.py; the `except Exception` clause wraps every transport
exception in `OdooMCPError`.  This refutes the claim that transport failures
surface as `NetworkError`. -/
theorem call_transport_failure_is_wrapped_not_network :
    raisedKind (call (.failure (.timeoutExc "Request timed out")))
      = some ExcKind.OdooMCPError
    ∧ raisedKind (call (.failure (.timeoutExc "Request timed out")))
      ≠ some ExcKind.NetworkError := by
  exact ⟨rfl, by decide⟩

/-- C2 (amended): every transport-level failure (timeout, connection refused,
HTTP error status) makes `call` raise `OdooMCPError` whose message appends the
transport exception's text to the fixed prefix and whose `original_exception`
cause is the underlying transport exception; moreover no outcome whatsoever
makes `call` re-raise the raw transport exception — the raw exception never
propagates out of the handler. -/
theorem call_transport_failure_wrapped (f : TransportFailure) :
    call (.failure f) =
      .error (.odoo .OdooMCPError (unexpectedErrorPrefix ++ f.text) (some (.transport f)))
    ∧ ∀ (resp : TransportOutcome) (g : TransportFailure),
        call resp ≠ .error (.transport g) := by
  refine ⟨rfl, fun resp g h => ?_⟩
  rcases call_error_is_odoo resp with ⟨k, m, c, he⟩ | ⟨v, he⟩ <;> rw [he] at h <;> cases h

/-- The reachable pool state holding exactly one busy wrapper, produced by a
single `get_connection` on a fresh pool of capacity 2. -/
def busyPool : PoolState := (getConnection 0 (mkPool 2 300)).2

/-- C3 (counterexample): `close_all` removes wrappers whose busy flag is true.
From the empty pool one acquisition yields a pool whose only wrapper is busy,
and `close_all` (also run by `stop`) still clears the collection — so a busy
Wrapper does transition to Evicted.  This refutes the claim that the only
transition into the removed state starts from busy=false. -/
theorem close_all_evicts_busy_wrapper :
    (busyPool.connections.map (fun w => w.in_use)) = [true]
    ∧ (close_all busyPool).connections = [] := by
  decide

/-- C3 (amended): a busy wrapper is never removed by the health-check tick nor
by `get_connection`, scoped release, or `release_connection`; only
`close_all`/`stop` evict busy wrappers (they clear the whole collection
regardless of the busy flag). -/
theorem busy_wrapper_survives_noncloseall_ops (now : Int) (cid : Nat) (s : PoolState)
    (w : ConnectionWrapper) (hmem : w ∈ s.connections) (hbusy : w.in_use = true) :
    w ∈ (healthCheckTick now s).connections
    ∧ w.connId ∈ wrapperIds (step s (.acquire now)).connections
    ∧ w.connId ∈ wrapperIds (step s (.scopedRelease now cid)).connections
    ∧ w.connId ∈ wrapperIds (step s (.explicitRelease now cid)).connections := by
  have hid : w.connId ∈ wrapperIds s.connections := List.mem_map_of_mem _ hmem
  refine ⟨?_, ?_, ?_, ?_⟩
  · simp [healthCheckTick, List.mem_filter, hmem, hbusy]
  · exact getConnection_keeps_ids now s w.connId hid
  · rw [step]
    show w.connId ∈ wrapperIds (releaseScopedWrapper now cid s.connections)
    rw [releaseScopedWrapper_ids]
    exact hid
  · rw [step]
    show w.connId ∈ wrapperIds (release_connection now cid s.connections)
    rw [release_connection_ids]
    exact hid

/-- C3 (witness): the amended theorem applied to the busy wrapper of
`busyPool`. -/
theorem busy_wrapper_survives_noncloseall_ops_witness :
    (⟨0, true, 0⟩ : ConnectionWrapper) ∈ busyPool.connections
    ∧ (⟨0, true, 0⟩ : ConnectionWrapper).in_use = true
    ∧ ((⟨0, true, 0⟩ : ConnectionWrapper) ∈ (healthCheckTick 500 busyPool).connections
      ∧ (⟨0, true, 0⟩ : ConnectionWrapper).connId
          ∈ wrapperIds (step busyPool (.acquire 500)).connections
      ∧ (⟨0, true, 0⟩ : ConnectionWrapper).connId
          ∈ wrapperIds (step busyPool (.scopedRelease 500 3)).connections
      ∧ (⟨0, true, 0⟩ : ConnectionWrapper).connId
          ∈ wrapperIds (step busyPool (.explicitRelease 500 3)).connections) :=
  ⟨by decide, rfl,
    busy_wrapper_survives_noncloseall_ops 500 3 busyPool ⟨0, true, 0⟩ (by decide) rfl⟩

/-- C4 (confirmed): from the empty pool, every sequence of pool operations
keeps `len(connections) <= max_size`; `get_connection` grows the collection
by one only when it is strictly below `max_size` (else the length is
unchanged), and release (both paths), the health-check tick, and
`close_all` never grow it. -/
theorem pool_size_bounded (maxSize : Nat) (interval now : Int) (cid : Nat)
    (ops : List PoolOp) (s : PoolState) :
    (run (mkPool maxSize interval) ops).connections.length ≤ maxSize
    ∧ ((getConnection now s).2.connections.length = s.connections.length
        ∨ ((getConnection now s).2.connections.length = s.connections.length + 1
            ∧ s.connections.length < s.max_size))
    ∧ (step s (.scopedRelease now cid)).connections.length = s.connections.length
    ∧ (step s (.explicitRelease now cid)).connections.length = s.connections.length
    ∧ (step s (.healthTick now)).connections.length ≤ s.connections.length
    ∧ (step s .closeAll).connections.length = 0 := by
  refine ⟨run_length_le ops (mkPool maxSize interval) (by simp [mkPool]),
    getConnection_growth now s, ?_, ?_, ?_, rfl⟩
  · show (releaseScopedWrapper now cid s.connections).length = s.connections.length
    simp [releaseScopedWrapper]
  · exact release_connection_length now cid s.connections
  · exact List.length_filter_le _ _

/-- C5 (confirmed): when every wrapper is busy and the pool already holds
`max_size` wrappers, `get_connection` raises `PoolTimeoutError` in that same
attempt and leaves the pool unchanged — there is no waiting, blocking or
queueing; the acquisition is a single atomic locked section that either
returns a wrapper or fails. -/
theorem get_connection_exhausted_fails_fast (now : Int) (s : PoolState)
    (hbusy : ∀ w ∈ s.connections, w.in_use = true)
    (hfull : s.connections.length = s.max_size) :
    getConnection now s = (.error poolTimeoutExc, s) := by
  rw [getConnection, acquireFirstFree_all_busy s.connections hbusy]
  rw [hfull]
  simp

/-- The reachable pool state of capacity 1 whose single wrapper is busy. -/
def fullPool : PoolState := (getConnection 0 (mkPool 1 300)).2

/-- C5 (witness): the theorem applied to a full pool of capacity 1. -/
theorem get_connection_exhausted_fails_fast_witness :
    (∀ w ∈ fullPool.connections, w.in_use = true)
    ∧ fullPool.connections.length = fullPool.max_size
    ∧ getConnection 5 fullPool = (.error poolTimeoutExc, fullPool) :=
  ⟨by decide, by decide, get_connection_exhausted_fails_fast 5 fullPool (by decide) (by decide)⟩

/-- C6 (confirmed): on a health-check tick, a busy wrapper is never evicted
regardless of age; an idle wrapper whose idle time is strictly greater than
`health_check_interval` is removed; an idle wrapper idle for strictly less
than the interval is kept. -/
theorem health_check_eviction_policy (now : Int) (s : PoolState) (w : ConnectionWrapper)
    (hmem : w ∈ s.connections) :
    (w.in_use = true → w ∈ (healthCheckTick now s).connections)
    ∧ (w.in_use = false → now - w.last_used > s.health_check_interval →
        w ∉ (healthCheckTick now s).connections)
    ∧ (w.in_use = false → now - w.last_used < s.health_check_interval →
        w ∈ (healthCheckTick now s).connections) := by
  refine ⟨fun hb => ?_, fun hb hgt hmem2 => ?_, fun hb hlt => ?_⟩
  · simp [healthCheckTick, List.mem_filter, hmem, hb]
  · have h2 := (List.mem_filter.mp hmem2).2
    simp [hb, hgt] at h2
  · have h2 := lt_asymm hlt
    simp [healthCheckTick, List.mem_filter, hmem, hb, h2]

/-- A pool holding one idle wrapper last used at time 0. -/
def idlePool : PoolState :=
  { connections := [⟨0, false, 0⟩], max_size := 10, health_check_interval := 300, next_id := 1 }

/-- C6 (witness): the eviction policy applied to an idle wrapper at a tick
400 seconds after its last use, with a 300-second interval. -/
theorem health_check_eviction_policy_witness :
    (⟨0, false, 0⟩ : ConnectionWrapper) ∈ idlePool.connections
    ∧ (((⟨0, false, 0⟩ : ConnectionWrapper).in_use = true →
          (⟨0, false, 0⟩ : ConnectionWrapper) ∈ (healthCheckTick 400 idlePool).connections)
      ∧ ((⟨0, false, 0⟩ : ConnectionWrapper).in_use = false →
          400 - (⟨0, false, 0⟩ : ConnectionWrapper).last_used > idlePool.health_check_interval →
          (⟨0, false, 0⟩ : ConnectionWrapper) ∉ (healthCheckTick 400 idlePool).connections)
      ∧ ((⟨0, false, 0⟩ : ConnectionWrapper).in_use = false →
          400 - (⟨0, false, 0⟩ : ConnectionWrapper).last_used < idlePool.health_check_interval →
          (⟨0, false, 0⟩ : ConnectionWrapper) ∈ (healthCheckTick 400 idlePool).connections)) :=
  ⟨by decide, health_check_eviction_policy 400 idlePool ⟨0, false, 0⟩ (by decide)⟩

/-- C7 (confirmed): once the cached session identity is set, every later
`ensure_authenticated` call returns the cached identity and leaves the
handler unchanged, for any transport behaviour; any sequence of such calls
(as triggered by `execute_kw`) leaves the state — including the count of
issued login RPCs — unchanged, and `execute_kw` itself never alters the
handler state of an authenticated handler.  The login RPC is therefore
issued at most once per handler instance while it succeeds. -/
theorem ensure_authenticated_cached_skips_login (h : HandlerState) (u : JsonVal)
    (hauth : h.uid = some u) :
    (∀ resp, ensure_authenticated h resp = (.ok u, h))
    ∧ (∀ resps, ensureMany h resps = h)
    ∧ (∀ loginResp model method argsv kwargs uidOpt pwOpt sidOpt,
        (execute_kw h loginResp model method argsv kwargs uidOpt pwOpt sidOpt).2.1 = h) := by
  have h1 : ∀ resp, ensure_authenticated h resp = (.ok u, h) := by
    intro resp
    rw [ensure_authenticated, hauth]
  refine ⟨h1, ?_, ?_⟩
  · intro resps
    induction resps with
    | nil => rfl
    | cons r rest ih =>
      show ensureMany (ensure_authenticated h r).2 rest = h
      rw [h1 r]
      exact ih
  · intro loginResp model method argsv kwargs uidOpt pwOpt sidOpt
    rw [execute_kw, h1 loginResp]
    dsimp only
    cases hs : sessionMergedContext (dictGet kwargs "context") sidOpt with
    | error e => rfl
    | ok ctx2 => rfl

/-- A handler whose first login already succeeded with uid 7. -/
def authedHandler : HandlerState :=
  { database := "db", username := "admin", password := "pw",
    uid := some (.num 7), loginCalls := 1 }

/-- C7 (witness): the theorem applied to an authenticated handler. -/
theorem ensure_authenticated_cached_skips_login_witness :
    authedHandler.uid = some (JsonVal.num 7)
    ∧ ((∀ resp, ensure_authenticated authedHandler resp = (.ok (JsonVal.num 7), authedHandler))
      ∧ (∀ resps, ensureMany authedHandler resps = authedHandler)
      ∧ (∀ loginResp model method argsv kwargs uidOpt pwOpt sidOpt,
          (execute_kw authedHandler loginResp model method argsv kwargs
            uidOpt pwOpt sidOpt).2.1 = authedHandler)) :=
  ⟨rfl, ensure_authenticated_cached_skips_login authedHandler (JsonVal.num 7) rfl⟩

/-- C8 (confirmed): if the login call returns a falsy result,
`ensure_authenticated` raises `AuthError` and the cached identity stays
`None` (only the login counter advances), so a later call with a successful
backend performs the login again and caches the new identity. -/
theorem ensure_authenticated_failure_leaves_uid_unset (h : HandlerState)
    (resp : TransportOutcome) (v : JsonVal)
    (hnone : h.uid = none) (hcall : call resp = .ok v) (hfalsy : truthy v = false) :
    ensure_authenticated h resp =
      (.error (.odoo .AuthError
        ("Authentication failed: invalid credentials for database " ++ h.database) none),
       { h with loginCalls := h.loginCalls + 1 })
    ∧ ({ h with loginCalls := h.loginCalls + 1 } : HandlerState).uid = none
    ∧ (∀ resp2 v2, call resp2 = .ok v2 → truthy v2 = true →
        ensure_authenticated { h with loginCalls := h.loginCalls + 1 } resp2 =
          (.ok v2,
           { h with
              uid := some v2
              loginCalls := h.loginCalls + 1 + 1 })) := by
  refine ⟨?_, hnone, fun resp2 v2 hcall2 htr2 => ?_⟩
  · rw [ensure_authenticated, hnone]
    dsimp only
    rw [hcall]
    dsimp only
    rw [hfalsy]
    rfl
  · rw [ensure_authenticated]
    dsimp only
    rw [hnone]
    dsimp only
    rw [hcall2]
    dsimp only
    rw [htr2]
    rfl

/-- A handler that has never authenticated. -/
def freshHandler : HandlerState :=
  { database := "db", username := "admin", password := "pw", uid := none, loginCalls := 0 }

/-- A login response whose `result` field is Python `False`, as Odoo returns
for bad credentials. -/
def failedLogin : TransportOutcome := .success [("result", .bool false)]

/-- C8 (witness): the theorem applied to a fresh handler whose login attempt
returns `False`. -/
theorem ensure_authenticated_failure_leaves_uid_unset_witness :
    freshHandler.uid = none
    ∧ call failedLogin = .ok (JsonVal.bool false)
    ∧ truthy (JsonVal.bool false) = false
    ∧ (ensure_authenticated freshHandler failedLogin =
        (.error (.odoo .AuthError
          ("Authentication failed: invalid credentials for database " ++ freshHandler.database)
          none),
         { freshHandler with loginCalls := freshHandler.loginCalls + 1 })
      ∧ ({ freshHandler with loginCalls := freshHandler.loginCalls + 1 } : HandlerState).uid
          = none
      ∧ (∀ resp2 v2, call resp2 = .ok v2 → truthy v2 = true →
          ensure_authenticated
              { freshHandler with loginCalls := freshHandler.loginCalls + 1 } resp2 =
            (.ok v2,
             { freshHandler with
                uid := some v2
                loginCalls := freshHandler.loginCalls + 1 + 1 }))) :=
  ⟨rfl, rfl, rfl,
    ensure_authenticated_failure_leaves_uid_unset freshHandler failedLogin
      (JsonVal.bool false) rfl rfl rfl⟩

/-- C9 (confirmed): for an authenticated handler (and whenever the
session-id merge raises no TypeError), the positional argument list handed to
`call("object", "execute_kw", ...)` is exactly `[database, uid_or_cached,
password_or_cached, model, method, args]`, and the remaining kwargs — with
the popped context (merged with `session_id` when one is given) folded back
under "context" when truthy — are appended as a seventh element exactly when
that kwargs/context payload is non-empty. -/
theorem execute_kw_positional_args (h : HandlerState) (u : JsonVal)
    (loginResp : TransportOutcome) (model method : String) (argsv : JsonVal) (kwargs : PyDict)
    (uidOpt : Option Int) (pwOpt : Option String) (sidOpt : Option String) (ctx2 : JsonVal)
    (hauth : h.uid = some u)
    (hctx : sessionMergedContext (dictGet kwargs "context") sidOpt = .ok ctx2) :
    (execute_kw h loginResp model method argsv kwargs uidOpt pwOpt sidOpt).1 =
      .ok ([.str h.database, callUidVal uidOpt (some u), .str (pwOpt.getD h.password),
            .str model, .str method, argsv]
        ++ (if (dictErase kwargs "context").isEmpty && !truthy ctx2 then []
            else [.obj (if truthy ctx2 then dictSet (dictErase kwargs "context") "context" ctx2
                        else dictErase kwargs "context")])) := by
  have h1 : ensure_authenticated h loginResp = (.ok u, h) := by
    rw [ensure_authenticated, hauth]
  rw [execute_kw, h1]
  dsimp only
  rw [hctx]
  dsimp only
  rw [hauth]
  rw [buildOdooArgs]
  cases he : (dictErase kwargs "context").isEmpty <;> cases ht : truthy ctx2 <;>
    simp [he, ht]

/-- The kwargs of the spec scenario: `{"fields": ["id", "name"]}`. -/
def specKwargs : PyDict := [("fields", .arr [.str "id", .str "name"])]

/-- A handler authenticated with uid 2, as in the spec scenario. -/
def specHandler : HandlerState :=
  { database := "db", username := "admin", password := "pw",
    uid := some (.num 2), loginCalls := 1 }

/-- C9 (witness): the spec scenario
`execute_kw(model="res.partner", method="search_read", args=[[]],
kwargs={"fields": ["id", "name"]})` produces `params.args` equal to
`[database, uid, password, "res.partner", "search_read", [[]],
{"fields": ["id", "name"]}]`. -/
theorem execute_kw_positional_args_witness :
    specHandler.uid = some (JsonVal.num 2)
    ∧ sessionMergedContext (dictGet specKwargs "context") none = .ok (JsonVal.obj [])
    ∧ (execute_kw specHandler (.success []) "res.partner" "search_read"
        (.arr [.arr []]) specKwargs none none none).1 =
      .ok [.str "db", .num 2, .str "pw", .str "res.partner", .str "search_read",
           .arr [.arr []], .obj [("fields", .arr [.str "id", .str "name"])]] :=
  ⟨rfl, rfl,
    execute_kw_positional_args specHandler (JsonVal.num 2) (.success []) "res.partner"
      "search_read" (.arr [.arr []]) specKwargs none none none (JsonVal.obj []) rfl rfl⟩

/-- C10 (confirmed): `execute_kw` mutates the caller's kwargs dict in place
via `kwargs.pop("context", {})`: after the call the dict is exactly the
original without its "context" binding — "context" is gone and every other
key is bound as before. -/
theorem execute_kw_pops_context_in_place (h : HandlerState) (u : JsonVal)
    (loginResp : TransportOutcome) (model method : String) (argsv : JsonVal) (kwargs : PyDict)
    (uidOpt : Option Int) (pwOpt : Option String) (sidOpt : Option String)
    (hauth : h.uid = some u) (_hhas : (dictGet kwargs "context").isSome = true) :
    (execute_kw h loginResp model method argsv kwargs uidOpt pwOpt sidOpt).2.2 =
      dictErase kwargs "context"
    ∧ dictGet (execute_kw h loginResp model method argsv kwargs uidOpt pwOpt sidOpt).2.2
        "context" = none
    ∧ (∀ k, k ≠ "context" →
        dictGet (execute_kw h loginResp model method argsv kwargs uidOpt pwOpt sidOpt).2.2 k
          = dictGet kwargs k) := by
  have h1 : ensure_authenticated h loginResp = (.ok u, h) := by
    rw [ensure_authenticated, hauth]
  have h2 : (execute_kw h loginResp model method argsv kwargs uidOpt pwOpt sidOpt).2.2 =
      dictErase kwargs "context" := by
    rw [execute_kw, h1]
    dsimp only
    cases hs : sessionMergedContext (dictGet kwargs "context") sidOpt with
    | error e => rfl
    | ok ctx2 => rfl
  refine ⟨h2, ?_, fun k hk => ?_⟩
  · rw [h2]
    exact dictGet_dictErase_self kwargs "context"
  · rw [h2]
    exact dictGet_dictErase_ne kwargs "context" k hk

/-- A caller's kwargs dict holding a context map and one further key. -/
def ctxKwargs : PyDict := [("context", .obj [("lang", .str "en")]), ("limit", .num 5)]

/-- C10 (witness): the theorem applied to kwargs containing a "context" key. -/
theorem execute_kw_pops_context_in_place_witness :
    specHandler.uid = some (JsonVal.num 2)
    ∧ (dictGet ctxKwargs "context").isSome = true
    ∧ ((execute_kw specHandler (.success []) "res.partner" "read" (.arr [])
          ctxKwargs none none none).2.2 = dictErase ctxKwargs "context"
      ∧ dictGet (execute_kw specHandler (.success []) "res.partner" "read" (.arr [])
          ctxKwargs none none none).2.2 "context" = none
      ∧ (∀ k, k ≠ "context" →
          dictGet (execute_kw specHandler (.success []) "res.partner" "read" (.arr [])
            ctxKwargs none none none).2.2 k = dictGet ctxKwargs k)) :=
  ⟨rfl, rfl,
    execute_kw_pops_context_in_place specHandler (JsonVal.num 2) (.success []) "res.partner"
      "read" (.arr []) ctxKwargs none none none rfl rfl⟩
